import Mathlib

/-!
Verification development for the optimum-nvidia repository
(`src/optimum/nvidia/builder/base.py` and `src/optimum/nvidia/pipelines/__init__.py`).

The Python code is shallowly embedded: the mutable `TensorRTEngineBuilder`
object becomes an explicit `BuilderState` record threaded through the
methods, Python exceptions become `Except PyError`, and filesystem /
external-collaborator interactions (the TensorRT-LLM graph builder, the
HuggingFace loader, the AMMO calibrator, `os.listdir`) are modelled as
explicit parameters or effect traces.  Machine integers are `Int` (Python
integers are unbounded, so no modular wrap is needed).
-/

/-- Python exception values raised by the embedded code.  Each constructor
carries the message (apostrophes/quotes from the CPython messages are
dropped; only the message shape produced by the source f-strings is kept). -/
inductive PyError where
  | valueError (msg : String)
  | typeError (msg : String)
  | attributeError (msg : String)
  | keyError (msg : String)
  | runtimeError (msg : String)
  | notImplementedError (msg : String)
  | unsupportedHardwareFeature (feature : String)
deriving DecidableEq, Repr

/-- Boolean test for `Except` success (used to state that a call raised). -/
def except_is_ok {ε α : Type} : Except ε α → Bool
  | .ok _ => true
  | .error _ => false

/-- External `tensorrt_llm.quantization.QuantMode`: an `IntFlag` bitmask of
enabled precisions (opaque external descriptor per the spec).  Only the two
float8 predicates used by the source are modelled; `FP8_KV_CACHE` and
`FP8_QDQ` occupy distinct bits of the flag value. -/
structure QuantMode where
  value : Nat
deriving DecidableEq, Repr

/-- `QuantMode.has_fp8_kv_cache()`: tests the FP8_KV_CACHE flag bit. -/
def QuantMode.has_fp8_kv_cache (m : QuantMode) : Bool := m.value.testBit 7

/-- `QuantMode.has_fp8_qdq()`: tests the FP8_QDQ flag bit. -/
def QuantMode.has_fp8_qdq (m : QuantMode) : Bool := m.value.testBit 8

/-- The value stored in `TensorRTEngineBuilder._qconfig`.  The source stores
either a `QuantMode` (from `with_quantization_profile`) or — in
`validate()` when no quantization was configured — the Python tuple
`(QuantMode(0), 0)`. -/
inductive QConfig where
  | mode (m : QuantMode)
  | pair (m : QuantMode) (n : Int)
deriving DecidableEq, Repr

/-- Python attribute access `qconfig.has_fp8_qdq()` on the stored
`_qconfig` value: a genuine `QuantMode` has the method, the tuple stored by
`validate()` (and `None`) do not, so CPython raises `AttributeError`. -/
def qconfig_has_fp8_qdq_attr : Option QConfig → Except PyError Bool
  | some (.mode m) => .ok m.has_fp8_qdq
  | some (.pair _ _) =>
      .error (.attributeError "tuple object has no attribute has_fp8_qdq")
  | none =>
      .error (.attributeError "NoneType object has no attribute has_fp8_qdq")

/-- Opaque handle for an `optimum.nvidia.quantization.Calibration` dataset
(external collaborator; only its presence matters to the embedded code). -/
structure Calibration where
  id : Nat
deriving DecidableEq, Repr

/-- `BuildInfo` NamedTuple: (parallel, num_parallel_jobs, quantized_path). -/
structure BuildInfo where
  parallel : Bool
  num_parallel_jobs : Int
  quantized_path : Option String
deriving DecidableEq, Repr

/-- Dynamic Python values passed positionally to the `BuildInfo`
constructor (used to model CPython argument binding). -/
inductive PyVal where
  | vBool (b : Bool)
  | vInt (n : Int)
  | vPath (p : String)
  | vNone
deriving DecidableEq, Repr

def PyVal.asBool : PyVal → Bool
  | .vBool b => b
  | _ => false

def PyVal.asInt : PyVal → Int
  | .vInt n => n
  | _ => 0

def PyVal.asPath : PyVal → Option String
  | .vPath p => some p
  | _ => none

/-- CPython construction of the `BuildInfo` NamedTuple.  The functional
`typing.NamedTuple` form declares all three fields without defaults, so all
three are required positional arguments: calling the constructor with any
other arity raises `TypeError` (`typing.NamedTuple` performs no runtime
type check on the values themselves). -/
def buildInfoNew : List PyVal → Except PyError BuildInfo
  | [a, b, c] => .ok { parallel := a.asBool, num_parallel_jobs := b.asInt, quantized_path := c.asPath }
  | _ => .error (.typeError "BuildInfo.__new__ missing required positional arguments")

/-- `SERIAL_BUILD = BuildInfo(False, 1, None)`. -/
def SERIAL_BUILD : BuildInfo :=
  { parallel := false, num_parallel_jobs := 1, quantized_path := none }

/-- `OptimizationProfile` NamedTuple.  `max_batch_size` is a required
argument of `with_generation_profile`; the other three are `Optional[int]`
and can genuinely hold `None`. -/
structure OptimizationProfile where
  max_batch_size : Int
  max_prompt_length : Option Int
  max_new_tokens : Option Int
  max_output_length : Option Int
deriving DecidableEq, Repr

/-- `ShardingInfo` NamedTuple. -/
structure ShardingInfo where
  tp_degree : Int
  pp_degree : Int
  world_size : Int
  num_gpus_per_node : Int
deriving DecidableEq, Repr

/-- `NO_SHARDING = ShardingInfo(1, 1, 1, 1)`. -/
def NO_SHARDING : ShardingInfo :=
  { tp_degree := 1, pp_degree := 1, world_size := 1, num_gpus_per_node := 1 }

/-- The HuggingFace model configuration mapping, restricted to the keys the
embedded code reads. -/
structure ModelConfig where
  model_type : String
  torch_dtype : String
  max_position_embeddings : Int
  hidden_size : Int
  num_hidden_layers : Int
  num_attention_heads : Int
  num_key_value_heads : Option Int
  hidden_act : String
  vocab_size : Int
deriving DecidableEq, Repr

/-- The mutable state of a `TensorRTEngineBuilder` instance. -/
structure BuilderState where
  model_id_or_path : String
  model_config : ModelConfig
  dtype : String
  build_info : BuildInfo
  sharding_info : ShardingInfo
  optimization_profile : Option OptimizationProfile
  qconfig : Option QConfig
  quantization_calibration : Option Calibration
  beam_width : Int
deriving DecidableEq, Repr

/-- `TensorRTEngineBuilder.__init__(model_id_or_path, config)`. -/
def builderInit (model_id_or_path : String) (config : ModelConfig) : BuilderState :=
  { model_id_or_path := model_id_or_path
    model_config := config
    dtype := config.torch_dtype
    build_info := SERIAL_BUILD
    sharding_info := NO_SHARDING
    optimization_profile := none
    qconfig := none
    quantization_calibration := none
    beam_width := -1 }

/-- `create_unique_engine_name(identifier, dtype, rank, tp_degree)`. -/
def create_unique_engine_name (identifier : String) (dtype : String)
    (rank : Nat) (tp_degree : Int) : String :=
  identifier ++ "_" ++ dtype ++ "_tp" ++ toString tp_degree ++ "_rank" ++
    toString rank ++ ".engine"

/-- `TensorRTEngineBuilder.enable_parallel_build(num_jobs)`: the source
executes `self._build_info = BuildInfo(True, num_jobs)` — only two of the
three required positional arguments of the NamedTuple. -/
def enable_parallel_build (s : BuilderState) (num_jobs : Int) :
    Except PyError BuilderState :=
  match buildInfoNew [.vBool true, .vInt num_jobs] with
  | .ok bi => .ok { s with build_info := bi }
  | .error e => .error e

/-- `TensorRTEngineBuilder.shard(tp_degree, pp_degree, world_size,
num_gpus_per_node)`. -/
def shard_config (s : BuilderState) (tp_degree pp_degree world_size num_gpus_per_node : Int) :
    BuilderState :=
  { s with sharding_info :=
      { tp_degree := tp_degree, pp_degree := pp_degree,
        world_size := world_size, num_gpus_per_node := num_gpus_per_node } }

/-- Hardware capability report from `optimum.nvidia.utils.nvml`
(`has_float8_support()` queries the GPU; modelled as a parameter). -/
structure HardwareCapabilities where
  has_float8_support : Bool
deriving DecidableEq, Repr

/-- Observable side effects of the calibration helper (model loading, the
external calibrator, and its on-disk save). -/
inductive Effect where
  | loadModel
  | calibrate
  | saveCalibration
deriving DecidableEq, Repr

/-- `TensorRTEngineBuilder.with_quantization_profile(mode, calibration)`.
The returned effect trace is empty on every path: the method performs no
model loading (the float8 capability check happens first and the method
body only stores the descriptors). -/
def with_quantization_profile (s : BuilderState) (hw : HardwareCapabilities)
    (mode : QuantMode) (calibration : Option Calibration) :
    Except PyError BuilderState × List Effect :=
  if mode.has_fp8_qdq || mode.has_fp8_kv_cache then
    if hw.has_float8_support = false then
      (.error (.unsupportedHardwareFeature "float8"), [])
    else
      (.ok { s with qconfig := some (.mode mode), quantization_calibration := calibration }, [])
  else
    (.ok { s with qconfig := some (.mode mode), quantization_calibration := calibration }, [])

/-- `TensorRTEngineBuilder.with_generation_profile(max_batch_size,
max_prompt_length, max_new_tokens, max_output_length)`: computes
`max_output_length = max_prompt_length + max_new_tokens` when it was
omitted and both other bounds were given, then stores the profile. -/
def with_generation_profile (s : BuilderState) (max_batch_size : Int)
    (max_prompt_length max_new_tokens max_output_length : Option Int) :
    BuilderState :=
  let max_output_length :=
    (match max_output_length, max_prompt_length, max_new_tokens with
     | none, some p, some n => some (p + n)
     | o, _, _ => o)
  let profile : OptimizationProfile :=
    { max_batch_size := max_batch_size,
      max_prompt_length := max_prompt_length,
      max_new_tokens := max_new_tokens,
      max_output_length := max_output_length }
  { s with optimization_profile := some profile }

/-- `TensorRTEngineBuilder.with_sampling_strategy(num_beams)`. -/
def with_sampling_strategy (s : BuilderState) (num_beams : Int) : BuilderState :=
  { s with beam_width := num_beams }

/-- The ValueError message raised by `validate()` when no optimization
profile was set. -/
def no_profile_msg : String :=
  "No optimization profile has been defined, please do set the profile you want this engine to be optimized for through TRTEngineBuilder.with_optimization_profile()."

/-- Python evaluation of an `Optional[int]` field in an arithmetic or
comparison context: `None` raises `TypeError`. -/
def pyNum (o : Option Int) : Except PyError Int :=
  match o with
  | some v => .ok v
  | none => .error (.typeError "unsupported operand type or comparison for NoneType and int")

/-- The lower-bound check of the `validate()` loop:
`if prop_value < min_value: raise ValueError(...)`. -/
def checkMin (prop : String) (v : Int) (minv : Int) : Except PyError Unit :=
  if v < minv then
    .error (.valueError ("Invalid value (" ++ toString v ++ ") for " ++ prop ++
      ". Needs to be >= " ++ toString minv))
  else .ok ()

/-- The upper-bound check of the `validate()` loop:
`if max_value is not None and prop_value > max_value: raise ValueError(...)`. -/
def checkMax (prop : String) (v : Int) (maxv : Option Int) : Except PyError Unit :=
  match maxv with
  | none => .ok ()
  | some m =>
      if v > m then
        .error (.valueError ("Invalid value (" ++ toString v ++ ") for " ++ prop ++
          ". Needs to be <= " ++ toString m))
      else .ok ()

/-- The bounds section of `validate()`: the Python bounds list is built
first (evaluating `max_prompt_length + max_new_tokens`, which raises
`TypeError` if either is `None`), then each property is checked against
its `(min, max)` pair in order:
`max_batch_size (1, None)`, `max_prompt_length (1, L-1)`,
`max_new_tokens (1, L-1)`, `max_output_length (prompt+new, L)`,
where `L = model_config["max_position_embeddings"]`.
Returns `(max_prompt_length, prompt+new)` for the subsequent
truncation-warning test. -/
def profile_bounds_check (p : OptimizationProfile) (L : Int) :
    Except PyError (Int × Int) :=
  (pyNum p.max_prompt_length).bind fun mp =>
  (pyNum p.max_new_tokens).bind fun mn =>
  (checkMin "max_batch_size" p.max_batch_size 1).bind fun _ =>
  (checkMax "max_batch_size" p.max_batch_size none).bind fun _ =>
  (checkMin "max_prompt_length" mp 1).bind fun _ =>
  (checkMax "max_prompt_length" mp (some (L - 1))).bind fun _ =>
  (checkMin "max_new_tokens" mn 1).bind fun _ =>
  (checkMax "max_new_tokens" mn (some (L - 1))).bind fun _ =>
  (pyNum p.max_output_length).bind fun vout =>
  (checkMin "max_output_length" vout (mp + mn)).bind fun _ =>
  (checkMax "max_output_length" vout (some L)).bind fun _ =>
  .ok (mp, mp + mn)

/-- The warnings `validate()` can log.  The truncation warning carries the
`new_max_new_tokens` value it reports (`L - max_prompt_length`); logging it
is the only thing the source does — the profile itself is not modified. -/
inductive Warn where
  | quantizationDefault
  | truncation (new_max_new_tokens : Int)
  | samplingDefault
deriving DecidableEq, Repr

/-- Result of a non-raising `validate()` run: the mutated builder state,
the warnings logged, and the returned boolean. -/
structure ValidateOut where
  state : BuilderState
  warnings : List Warn
  ret : Bool
deriving DecidableEq, Repr

/-- `TensorRTEngineBuilder.validate()`.  In order: default the missing
quantization descriptor to the Python tuple `(QuantMode(0), 0)` with a
warning; raise `ValueError` when no optimization profile is set; run the
bounds loop; log (only log) the truncation warning when
`max_prompt_length + max_new_tokens > max_position_embeddings`; default
`beam_width` to 1 with a warning when it is `< 1`; return `True`. -/
def validate (s : BuilderState) : Except PyError ValidateOut :=
  let qc : QConfig :=
    (match s.qconfig with
     | none => .pair { value := 0 } 0
     | some q => q)
  let w1 : List Warn :=
    (match s.qconfig with
     | none => [.quantizationDefault]
     | some _ => [])
  match s.optimization_profile with
  | none => .error (.valueError no_profile_msg)
  | some p =>
      (profile_bounds_check p s.model_config.max_position_embeddings).bind fun r =>
        let L := s.model_config.max_position_embeddings
        let w2 : List Warn := if r.2 > L then [.truncation (L - r.1)] else []
        let w3 : List Warn := if s.beam_width < 1 then [.samplingDefault] else []
        let beam : Int := if s.beam_width < 1 then 1 else s.beam_width
        .ok { state := { s with qconfig := some qc, beam_width := beam },
              warnings := w1 ++ w2 ++ w3,
              ret := true }

/-- Python `str.endswith(suffix)`: suffix test on the character
sequence (Lean's own `String.endsWith` is built on substring primitives
that do not reduce, so the embedding uses the character list directly). -/
def py_endswith (s suffix : String) : Bool := suffix.data.isSuffixOf s.data

/-- State of the `calibration` subdirectory of the output path, as seen by
`Path.exists` / `Path.is_dir` / `os.listdir`. -/
inductive FsEntry where
  | absent
  | file
  | dir (files : List String)
deriving DecidableEq, Repr

def FsEntry.pathExists : FsEntry → Bool
  | .absent => false
  | _ => true

def FsEntry.isDir : FsEntry → Bool
  | .dir _ => true
  | _ => false

/-- The effect trace of the recompute path of `quantize`: load the source
model, run the external calibrator, persist its outputs. -/
def recompute_effects : List Effect := [.loadModel, .calibrate, .saveCalibration]

/-- `TensorRTEngineBuilder.quantize(output_path)`.  The calibration
directory is `output_path/calibration`.  When a calibration dataset was
supplied: the cache is considered valid exactly when the directory exists,
is a directory, holds exactly two entries, one ending `.json` and one
ending `.safetensors`; otherwise the model is loaded and recalibrated.
In every case `build_info` is rebuilt with `quantized_path` set to the
calibration path. -/
def quantize (s : BuilderState) (output_path : String) (calfs : FsEntry) :
    BuilderState × List Effect :=
  let calibration_path := output_path ++ "/calibration"
  let effects : List Effect :=
    (match s.quantization_calibration with
     | none => []
     | some _ =>
        let flags : Bool × Bool :=
          if calfs.pathExists && calfs.isDir then
            (match calfs with
             | .dir calibration_data =>
                if calibration_data.length = 2 then
                  (calibration_data.any (fun f => py_endswith f ".json"),
                   calibration_data.any (fun f => py_endswith f ".safetensors"))
                else (false, false)
             | _ => (false, false))
          else (false, false)
        let has_json := flags.1
        let has_qweight := flags.2
        if !calfs.pathExists || !(has_json && has_qweight) then
          recompute_effects
        else [])
  let bi : BuildInfo :=
    { parallel := s.build_info.parallel,
      num_parallel_jobs := s.build_info.num_parallel_jobs,
      quantized_path := some calibration_path }
  ({ s with build_info := bi }, effects)

/-- One entry of `tensorrt_llm.Mapping` as constructed in `build()`:
`Shard(world_size, rank, num_gpus_per_node, tp_degree, pp_degree)`. -/
structure Shard where
  world_size : Int
  rank : Nat
  gpus_per_node : Int
  tp_size : Int
  pp_size : Int
deriving DecidableEq, Repr

/-- The `shards_info` list built at the top of `build()`: one `Shard` per
`rank in range(world_size)`. -/
def make_shards (sh : ShardingInfo) : List Shard :=
  (List.range sh.world_size.toNat).map fun rank =>
    { world_size := sh.world_size, rank := rank,
      gpus_per_node := sh.num_gpus_per_node,
      tp_size := sh.tp_degree, pp_size := sh.pp_degree }

/-- Python association-list lookup `d[k]` (raises `KeyError` on a miss). -/
def dictGetItem {α : Type} (d : List (String × α)) (k : String) :
    Except PyError α :=
  match d.find? (fun kv => kv.1 == k) with
  | some kv => .ok kv.2
  | none => .error (.keyError k)

/-- Python membership test `k in d` for a string-keyed dict. -/
def dictContains {α : Type} (d : List (String × α)) (k : String) : Bool :=
  d.any (fun kv => kv.1 == k)

/-- The architecture adapters of `_MODEL_TYPE_TO_TRT_IMPL`. -/
inductive TrtAdapter where
  | llamaForCausalLM
deriving DecidableEq, Repr

/-- `_MODEL_TYPE_TO_TRT_IMPL`: llama and mistral both map to
`LLaMAForCausalLM` (the gemma entry is commented out in the source). -/
def MODEL_TYPE_TO_TRT_IMPL : List (String × TrtAdapter) :=
  [("llama", .llamaForCausalLM), ("mistral", .llamaForCausalLM)]

/-- Python attribute access `self._optimization_profile.<field>` — raises
`AttributeError` when the profile is still `None`. -/
def profile_attr (p : Option OptimizationProfile) :
    Except PyError OptimizationProfile :=
  match p with
  | some q => .ok q
  | none => .error (.attributeError "NoneType object has no attribute")

/-- The configuration record handed to the external
`tensorrt_llm.builder.Builder.create_builder_config`, holding the keyword
arguments the source computes from builder state. -/
structure TRTBuilderConfig where
  name : String
  precision : String
  fp8 : Bool
  hidden_size : Int
  num_layers : Int
  max_batch_size : Int
  tensor_parallel : Int
  use_refit : Bool
  quant_mode : Option QConfig
  huggingface : ModelConfig
  hidden_act : String
  num_kv_heads : Int
  num_heads : Int
  max_position_embeddings : Int
  max_input_len : Option Int
  max_output_len : Option Int
  max_num_tokens : Option Int
  max_beam_width : Int
  strongly_typed : Bool
  pipeline_parallel : Int
  parallel_build : Bool
  vocab_size : Int
  opt_level : Option Int
deriving DecidableEq, Repr

/-- `TensorRTEngineBuilder.create_builder_config(...)`.  The keyword
arguments are evaluated left to right as at the call site: `fp8` (the
third) calls `qconfig.has_fp8_qdq()`, the shape arguments read
`self._optimization_profile` attributes, and `strongly_typed` calls
`has_fp8_qdq()` again. -/
def create_builder_config (s : BuilderState) (shard : Shard)
    (is_parallel : Bool) (opt_level : Option Int) :
    Except PyError TRTBuilderConfig :=
  (qconfig_has_fp8_qdq_attr s.qconfig).bind fun fp8 =>
  (profile_attr s.optimization_profile).bind fun prof =>
  (qconfig_has_fp8_qdq_attr s.qconfig).bind fun strongly =>
  .ok { name := s.model_config.model_type
        precision := s.dtype
        fp8 := fp8
        hidden_size := s.model_config.hidden_size
        num_layers := s.model_config.num_hidden_layers
        max_batch_size := prof.max_batch_size
        tensor_parallel := shard.tp_size
        use_refit := false
        quant_mode := s.qconfig
        huggingface := s.model_config
        hidden_act := s.model_config.hidden_act
        num_kv_heads := s.model_config.num_key_value_heads.getD s.model_config.num_attention_heads
        num_heads := s.model_config.num_attention_heads
        max_position_embeddings := s.model_config.max_position_embeddings
        max_input_len := prof.max_prompt_length
        max_output_len := prof.max_output_length
        max_num_tokens := none
        max_beam_width := s.beam_width
        strongly_typed := strongly
        pipeline_parallel := shard.pp_size
        parallel_build := is_parallel
        vocab_size := s.model_config.vocab_size
        opt_level := opt_level }

/-- The two boolean environment switches read by
`_build_engine_for_rank` via `parse_flag_from_env` (both default to
disabled). -/
structure EnvFlags where
  enable_debug_outputs : Bool
  output_onnx_ir : Bool
deriving DecidableEq, Repr

/-- Deterministic stub for the external graph builder:
`Builder.build_engine(network, build_config)` returns either engine bytes
or a falsy result. -/
structure ExternalBuilder where
  build_engine : Shard → Option (List Nat)

/-- Contents of the files `_build_engine_for_rank` writes under
`output_path`. -/
inductive FileContent where
  | engineData (bytes : List Nat)
  | hfConfig (c : ModelConfig)
  | timingCache
  | builderCfg (c : TRTBuilderConfig)
  | onnxGraph
deriving DecidableEq, Repr

/-- `huggingface_hub.CONFIG_NAME`. -/
def CONFIG_NAME : String := "config.json"

/-- Modelled from the spec: the "builder-config file" name
`OPTIMUM_NVIDIA_CONFIG_FILE` is defined in `optimum.nvidia.utils`, which
is not among the provided sources; only its distinctness matters here. -/
def OPTIMUM_NVIDIA_CONFIG_FILE : String := "optimum_nvidia_config.json"

/-- Modelled from the spec: the "timing-cache file" name
`TENSORRT_TIMINGS_FILE` is defined in `optimum.nvidia.utils`, which is not
among the provided sources; only its distinctness matters here. -/
def TENSORRT_TIMINGS_FILE : String := "timings.cache"

/-- `TensorRTEngineBuilder._build_engine_for_rank(shard, output_path,
opt_level, is_parallel)`, projected onto its filesystem writes (in
program order).  Plugin configuration, `prepare_inputs`, the graph
optimizer and the debug-output marking touch no files.  The optional ONNX
export (`OPTIMUM_NVIDIA_OUTPUT_ONNX_IR`) is written inside `net_guard` by
every rank; the HuggingFace config, timing cache and builder config are
written only by rank 0; the `RuntimeError` for a falsy engine is raised
after those rank-0 writes but before the engine serialization. -/
def build_engine_for_rank (s : BuilderState) (ext : ExternalBuilder)
    (env : EnvFlags) (shard : Shard) (output_path : String)
    (opt_level : Option Int) (is_parallel : Bool) :
    Except PyError (List (String × FileContent)) :=
  let ranked_engine_name :=
    create_unique_engine_name s.model_config.model_type s.dtype shard.rank shard.tp_size
  (create_builder_config s shard is_parallel opt_level).bind fun build_config =>
  (dictGetItem MODEL_TYPE_TO_TRT_IMPL s.model_config.model_type).bind fun _adapter =>
  let onnx_writes : List (String × FileContent) :=
    if env.output_onnx_ir then [(output_path ++ "/model.onnx", .onnxGraph)] else []
  let engine := ext.build_engine shard
  let rank0_writes : List (String × FileContent) :=
    if shard.rank = 0 then
      [(output_path ++ "/" ++ CONFIG_NAME, .hfConfig s.model_config),
       (output_path ++ "/" ++ TENSORRT_TIMINGS_FILE, .timingCache),
       (output_path ++ "/" ++ OPTIMUM_NVIDIA_CONFIG_FILE, .builderCfg build_config)]
    else []
  match engine with
  | none =>
      .error (.runtimeError "TRT Engine build failed... Please check the logs and open up an issue.")
  | some bytes =>
      .ok (onnx_writes ++ rank0_writes ++
           [(output_path ++ "/" ++ ranked_engine_name, .engineData bytes)])

/-- `TensorRTEngineBuilder._build_serial`: iterate the shards in order,
building each synchronously with `is_parallel=False`; the writes
accumulate in order. -/
def build_serial (s : BuilderState) (ext : ExternalBuilder) (env : EnvFlags)
    (shards_info : List Shard) (output_path : String) (opt_level : Option Int) :
    Except PyError (List (String × FileContent)) :=
  shards_info.foldlM
    (fun acc shard =>
      (build_engine_for_rank s ext env shard output_path opt_level false).map
        (fun w => acc ++ w))
    []

/-- The dynamically typed value flowing through `num_jobs` in
`_build_parallel`: an int, the set returned by `sched_getaffinity(0)`, or
the shard list assigned by `num_jobs = shard_info`. -/
inductive NumJobsVal where
  | int (n : Int)
  | cpuSet (cpus : List Nat)
  | shards (l : List Shard)
deriving DecidableEq, Repr

/-- CPython evaluation of `num_jobs > len(shard_info)`: defined for an
int, a `TypeError` for a set or a list on the left. -/
def numJobsGtLen (v : NumJobsVal) (len : Nat) : Except PyError Bool :=
  match v with
  | .int n => .ok (n > (len : Int))
  | .cpuSet _ => .error (.typeError "unsupported comparison between set and int")
  | .shards _ => .error (.typeError "unsupported comparison between list and int")

/-- CPython construction `Pool(num_jobs)`: `processes` must be an int
(positive); a set or a list raises `TypeError`. -/
def poolNew (v : NumJobsVal) : Except PyError Unit :=
  match v with
  | .int n => if n < 1 then .error (.valueError "Number of processes must be at least 1") else .ok ()
  | .cpuSet _ => .error (.typeError "set object cannot be interpreted as an integer")
  | .shards _ => .error (.typeError "list object cannot be interpreted as an integer")

/-- CPython argument binding for `multiprocessing.Pool.map(self, func,
iterable, chunksize=None)`: any keyword argument other than those three
parameter names raises `TypeError` before the pool does any work; if the
binding succeeded, a non-iterable `iterable` argument (here a single
`Mapping` shard object) would also raise `TypeError`. -/
def pool_map_call (keywords : List String) (iterable_is_iterable : Bool) :
    Except PyError (List (String × FileContent)) :=
  match keywords.find? (fun k => !(k == "func" || k == "iterable" || k == "chunksize")) with
  | some k => .error (.typeError ("map got an unexpected keyword argument " ++ k))
  | none =>
      if iterable_is_iterable then .ok []
      else .error (.typeError "Mapping object is not iterable")

/-- `TensorRTEngineBuilder._build_parallel(shard_info, output_path,
opt_level)`.  Faithful to the source: `num_jobs` is the configured job
count when `> 1`, otherwise the affinity *set* itself; when
`num_jobs > len(shard_info)` the shard *list* is assigned to `num_jobs`;
the pool is created from that value; and the loop body calls
`builders.map(self._build_engine_for_rank, shard, output_path,
is_parallel=True, opt_level=opt_level)` — `output_path` lands in the
`chunksize` slot and `is_parallel` / `opt_level` are unexpected keywords. -/
def build_parallel (s : BuilderState) (_ext : ExternalBuilder) (_env : EnvFlags)
    (cpu_affinity : List Nat) (shard_info : List Shard) (_output_path : String)
    (_opt_level : Option Int) :
    Except PyError (List (String × FileContent)) :=
  let num_jobs : NumJobsVal :=
    if s.build_info.num_parallel_jobs > 1 then .int s.build_info.num_parallel_jobs
    else .cpuSet cpu_affinity
  (numJobsGtLen num_jobs shard_info.length).bind fun gt =>
  let num_jobs := if gt then NumJobsVal.shards shard_info else num_jobs
  (poolNew num_jobs).bind fun _ =>
  match shard_info with
  | [] => .ok []
  | _ :: _ => pool_map_call ["is_parallel", "opt_level"] false

/-- One `(pipeline class, model loader class)` pair of the pipeline
registry (the classes themselves are external; their names identify
them). -/
structure PipeEntry where
  pipeline_class : String
  model_loader_class : String
deriving DecidableEq, Repr

/-- `SUPPORTED_MODEL_WITH_TASKS`: model-type → task → implementation pair. -/
def SUPPORTED_MODEL_WITH_TASKS : List (String × List (String × PipeEntry)) :=
  [("llama", [("text-generation",
      { pipeline_class := "TextGenerationPipeline",
        model_loader_class := "AutoModelForCausalLM" })])]

/-- `pipelines.pipeline(task, model_or_path, ...)`, projected onto its
registry resolution: the model type comes from the resolved HuggingFace
config; an unregistered model type raises `NotImplementedError`, an
unregistered task for a registered model type raises `ValueError`; the
subsequent tokenizer resolution and model loading are external
collaborator calls and the resolved registry entry is returned. -/
def pipeline (task : String) (model_type : String) : Except PyError PipeEntry :=
  if dictContains SUPPORTED_MODEL_WITH_TASKS model_type = false then
    .error (.notImplementedError ("Model type " ++ model_type ++ " is not currently supported"))
  else
    (dictGetItem SUPPORTED_MODEL_WITH_TASKS model_type).bind fun tasks =>
    if dictContains tasks task = false then
      .error (.valueError ("Task " ++ task ++ " is not supported yet for " ++ model_type ++ "."))
    else
      dictGetItem tasks task

/-- Boolean test for a `NotImplementedError` outcome. -/
def is_not_implemented_error {α : Type} : Except PyError α → Bool
  | .error (.notImplementedError _) => true
  | _ => false

/-- A llama model configuration with `max_position_embeddings = 120`
(the configuration of claim C1). -/
def llama_config_120 : ModelConfig :=
  { model_type := "llama", torch_dtype := "float16",
    max_position_embeddings := 120, hidden_size := 4096,
    num_hidden_layers := 32, num_attention_heads := 32,
    num_key_value_heads := none, hidden_act := "silu", vocab_size := 32000 }

/-- A llama model configuration with `max_position_embeddings = 100`. -/
def llama_config_100 : ModelConfig :=
  { model_type := "llama", torch_dtype := "float16",
    max_position_embeddings := 100, hidden_size := 4096,
    num_hidden_layers := 32, num_attention_heads := 32,
    num_key_value_heads := none, hidden_act := "silu", vocab_size := 32000 }

/-- A well-formed optimization profile: batch 1, prompt 8, new tokens 8,
output length 16. -/
def demo_profile : OptimizationProfile :=
  { max_batch_size := 1, max_prompt_length := some 8,
    max_new_tokens := some 8, max_output_length := some 16 }

/-- The builder of claim C1: `max_position_embeddings = 120`,
`with_generation_profile(max_batch_size=1, max_prompt_length=100,
max_new_tokens=50)` with `max_output_length` left to its default. -/
def c1_builder : BuilderState :=
  with_generation_profile (builderInit "meta-llama/Llama-2-7b-hf" llama_config_120)
    1 (some 100) (some 50) none

/-- A builder with a valid profile and no quantization configured
(claim C6's scenario). -/
def c6_state : BuilderState :=
  { builderInit "meta-llama/Llama-2-7b-hf" llama_config_100 with
      optimization_profile := some demo_profile }

/-- The outcome `validate` produces on `c6_state`. -/
def c6_out : ValidateOut :=
  { state := { c6_state with qconfig := some (.pair { value := 0 } 0), beam_width := 1 },
    warnings := [.quantizationDefault, .samplingDefault],
    ret := true }

/-- A single-rank shard. -/
def c6_shard : Shard :=
  { world_size := 1, rank := 0, gpus_per_node := 1, tp_size := 1, pp_size := 1 }

/-- The builder of claim C3: parallel build with 2 jobs over a
2-way tensor-parallel sharding, valid profile, quantization mode 0. -/
def c3_builder : BuilderState :=
  { builderInit "meta-llama/Llama-2-7b-hf" llama_config_100 with
      build_info := { parallel := true, num_parallel_jobs := 2, quantized_path := none },
      sharding_info := { tp_degree := 2, pp_degree := 1, world_size := 2, num_gpus_per_node := 1 },
      optimization_profile := some demo_profile,
      qconfig := some (.mode { value := 0 }),
      beam_width := 1 }

/-- The shard list `build()` derives from `c3_builder`'s sharding. -/
def c3_shards : List Shard :=
  make_shards { tp_degree := 2, pp_degree := 1, world_size := 2, num_gpus_per_node := 1 }

/-- A deterministic external builder stub: rank `r` compiles to the
single-byte engine `[r]`. -/
def c3_ext : ExternalBuilder := { build_engine := fun sh => some [sh.rank] }

/-- Default environment: both debug switches disabled. -/
def default_env : EnvFlags := { enable_debug_outputs := false, output_onnx_ir := false }

/-- Rank-1 shard of a 2-way tensor-parallel world (claim C10 witness). -/
def c10_shard : Shard :=
  { world_size := 2, rank := 1, gpus_per_node := 1, tp_size := 2, pp_size := 1 }

/-- The builder configuration `create_builder_config` computes for
`c3_builder` on any shard with `tp_size = 2`, `pp_size = 1`,
`is_parallel = False`, `opt_level = None`. -/
def c10_cfg : TRTBuilderConfig :=
  { name := "llama", precision := "float16", fp8 := false,
    hidden_size := 4096, num_layers := 32, max_batch_size := 1,
    tensor_parallel := 2, use_refit := false,
    quant_mode := some (.mode { value := 0 }),
    huggingface := llama_config_100, hidden_act := "silu",
    num_kv_heads := 32, num_heads := 32, max_position_embeddings := 100,
    max_input_len := some 8, max_output_len := some 16,
    max_num_tokens := none, max_beam_width := 1, strongly_typed := false,
    pipeline_parallel := 1, parallel_build := false, vocab_size := 32000,
    opt_level := none }

/-- A builder that never had a profile set (claim C5 witness, first part). -/
def c5_no_profile : BuilderState :=
  builderInit "meta-llama/Llama-2-7b-hf" llama_config_100

/-- A builder whose profile has `max_batch_size = 0` (claim C5 witness,
second part). -/
def c5_batch0 : BuilderState :=
  { builderInit "meta-llama/Llama-2-7b-hf" llama_config_100 with
      optimization_profile :=
        some { max_batch_size := 0, max_prompt_length := some 8,
               max_new_tokens := some 8, max_output_length := some 16 } }

/-- A builder whose profile has `max_prompt_length = 150`, above the upper
bound `max_position_embeddings - 1 = 99` (claim C5 witness, upper-bound
part). -/
def c5_prompt_over : BuilderState :=
  { builderInit "meta-llama/Llama-2-7b-hf" llama_config_100 with
      optimization_profile :=
        some { max_batch_size := 1, max_prompt_length := some 150,
               max_new_tokens := some 8, max_output_length := some 158 } }

/-- A builder with a calibration dataset attached (claim C7 witness). -/
def c7_state : BuilderState :=
  { builderInit "meta-llama/Llama-2-7b-hf" llama_config_100 with
      quantization_calibration := some { id := 0 } }

/-- A fresh builder over the 100-token llama configuration (claim C9). -/
def c9_state : BuilderState :=
  builderInit "meta-llama/Llama-2-7b-hf" llama_config_100

/-- A `QuantMode` with the FP8_QDQ bit set. -/
def fp8_qdq_mode : QuantMode := { value := 256 }

/-- `QuantMode(0)`: no precision flags set. -/
def quant_mode_zero : QuantMode := { value := 0 }

theorem except_bind_ok_eval {ε α β : Type} (a : α) (k : α → Except ε β) :
    (Except.ok a).bind k = k a := rfl

theorem except_bind_error_eval {ε α β : Type} (e : ε) (k : α → Except ε β) :
    (Except.error e : Except ε α).bind k = .error e := rfl

theorem checkMin_of_ge (prop : String) (v minv : Int) (h : ¬ v < minv) :
    checkMin prop v minv = .ok () := by
  simp [checkMin, h]

theorem checkMax_some_of_le (prop : String) (v m : Int) (h : ¬ v > m) :
    checkMax prop v (some m) = .ok () := by
  simp [checkMax, h]

/-- When every field of the profile is set and inside its bound, the
bounds section of `validate()` passes and reports
`(max_prompt_length, max_prompt_length + max_new_tokens)`. -/
theorem profile_bounds_check_ok (p : OptimizationProfile) (L mp mn vout : Int)
    (hmp : p.max_prompt_length = some mp) (hmn : p.max_new_tokens = some mn)
    (hout : p.max_output_length = some vout)
    (hb : 1 ≤ p.max_batch_size) (hp1 : 1 ≤ mp) (hp2 : mp ≤ L - 1)
    (hn1 : 1 ≤ mn) (hn2 : mn ≤ L - 1) (ho1 : mp + mn ≤ vout) (ho2 : vout ≤ L) :
    profile_bounds_check p L = .ok (mp, mp + mn) := by
  have c1 : ¬ p.max_batch_size < 1 := by omega
  have c2 : ¬ mp < 1 := by omega
  have c3 : ¬ mp > L - 1 := by omega
  have c4 : ¬ mn < 1 := by omega
  have c5 : ¬ mn > L - 1 := by omega
  have c6 : ¬ vout < mp + mn := by omega
  have c7 : ¬ vout > L := by omega
  simp [profile_bounds_check, pyNum, hmp, hmn, hout, checkMin, checkMax,
        Except.bind, c1, c2, c3, c4, c5, c6, c7]

/-- Shape of every non-raising `validate()` run: the profile is untouched,
the quantization slot holds its old value or the defaulted tuple, and the
returned boolean is `True`. -/
theorem validate_ok_shape (s : BuilderState) (out : ValidateOut)
    (h : validate s = .ok out) :
    out.state.optimization_profile = s.optimization_profile ∧
    out.state.qconfig = some ((match s.qconfig with
        | none => QConfig.pair { value := 0 } 0
        | some q => q)) ∧
    out.ret = true := by
  cases hop : s.optimization_profile with
  | none =>
      simp only [validate, hop] at h
      exact Except.noConfusion h
  | some p =>
      cases hb : profile_bounds_check p s.model_config.max_position_embeddings with
      | error e =>
          simp only [validate, hop, hb, Except.bind] at h
          exact Except.noConfusion h
      | ok r =>
          simp only [validate, hop, hb, Except.bind] at h
          injection h with h2
          rw [← h2]
          exact ⟨rfl, rfl, rfl⟩

/-- A builder whose profile passes the bounds check validates
successfully. -/
theorem validate_ok_of_bounds (s : BuilderState) (p : OptimizationProfile)
    (r : Int × Int) (hp : s.optimization_profile = some p)
    (hb : profile_bounds_check p s.model_config.max_position_embeddings = .ok r) :
    except_is_ok (validate s) = true := by
  simp only [validate, hp, hb, Except.bind]
  rfl

/-- Claim C1 counterexample: on a builder with
`max_position_embeddings = 120` and a generation profile
`max_prompt_length = 100, max_new_tokens = 50` (defaulted
`max_output_length = 150`), `validate()` raises
`ValueError` for `max_output_length` — it rejects the profile rather than
succeeding with a warning. -/
theorem claim_C1_counterexample :
    validate c1_builder =
      .error (.valueError ("Invalid value (" ++ toString ((150 : Int)) ++
        ") for " ++ "max_output_length" ++ ". Needs to be <= " ++ toString ((120 : Int)))) ∧
    except_is_ok (validate c1_builder) = false :=
  ⟨rfl, rfl⟩

/-- Claim C1 (amended): with `max_position_embeddings = 120`,
`max_prompt_length = 100`, `max_new_tokens = 50` and `max_output_length`
left to its default (150), `validate()` rejects the profile with a
`ValueError` naming `max_output_length`; no truncation of
`max_new_tokens` ever happens — a non-raising `validate()` leaves the
stored optimization profile unchanged (the truncation message is only
logged). -/
theorem claim_C1_amended :
    (validate c1_builder =
      .error (.valueError ("Invalid value (" ++ toString ((150 : Int)) ++
        ") for " ++ "max_output_length" ++ ". Needs to be <= " ++ toString ((120 : Int))))) ∧
    (∀ s out, validate s = .ok out →
      out.state.optimization_profile = s.optimization_profile) :=
  ⟨rfl, fun s out h => (validate_ok_shape s out h).1⟩

/-- Witness for the amended claim C1, at a builder that validates
successfully. -/
theorem claim_C1_amended_witness :
    validate c6_state = .ok c6_out ∧
    c6_out.state.optimization_profile = c6_state.optimization_profile :=
  ⟨rfl, claim_C1_amended.2 c6_state c6_out rfl⟩

/-- Claim C2: `enable_parallel_build(num_jobs)` never stores a
`BuildInfo` — on every builder and every `num_jobs` it raises `TypeError`,
because `BuildInfo(True, num_jobs)` supplies only two of the NamedTuple's
three required positional arguments. -/
theorem claim_C2_bug (s : BuilderState) (num_jobs : Int) :
    enable_parallel_build s num_jobs =
      .error (.typeError "BuildInfo.__new__ missing required positional arguments") :=
  rfl

/-- Claim C3: serial dispatch over the two shards writes the two ranked
engine files (plus the rank-0 metadata), while parallel dispatch with the
same deterministic external builder raises `TypeError` from the
`Pool.map(..., is_parallel=True, opt_level=...)` call and produces no
files at all — the two dispatch paths are not equivalent. -/
theorem claim_C3_bug :
    ((build_serial c3_builder c3_ext default_env c3_shards "out" none).toOption.map
        (fun files => files.map Prod.fst) =
      some ["out/config.json", "out/timings.cache", "out/optimum_nvidia_config.json",
            "out/llama_float16_tp2_rank0.engine", "out/llama_float16_tp2_rank1.engine"]) ∧
    build_parallel c3_builder c3_ext default_env [0, 1, 2, 3] c3_shards "out" none =
      .error (.typeError ("map got an unexpected keyword argument " ++ "is_parallel")) ∧
    except_is_ok
      (build_parallel c3_builder c3_ext default_env [0, 1, 2, 3] c3_shards "out" none) = false :=
  ⟨rfl, rfl, rfl⟩

/-- Claim C4 counterexample: for the registered model type `llama` and the
unregistered task `summarization`, `pipeline` raises `ValueError` (whose
message does not enumerate the supported tasks), not the
`NotImplementedError` the claim asserts. -/
theorem claim_C4_counterexample :
    pipeline "summarization" "llama" =
      .error (.valueError ("Task " ++ "summarization" ++
        " is not supported yet for " ++ "llama" ++ ".")) ∧
    is_not_implemented_error (pipeline "summarization" "llama") = false :=
  ⟨rfl, rfl⟩

/-- Claim C4 (amended): an unregistered model type makes `pipeline` raise
`NotImplementedError` naming only the model type (no task list); a
registered model type with an unregistered task makes it raise
`ValueError` naming the task and the model type, without enumerating the
supported tasks. -/
theorem claim_C4_amended :
    (∀ task model_type,
      dictContains SUPPORTED_MODEL_WITH_TASKS model_type = false →
      pipeline task model_type =
        .error (.notImplementedError
          ("Model type " ++ model_type ++ " is not currently supported"))) ∧
    (∀ task, task ≠ "text-generation" →
      pipeline task "llama" =
        .error (.valueError ("Task " ++ task ++
          " is not supported yet for " ++ "llama" ++ "."))) := by
  constructor
  · intro task model_type h
    simp [pipeline, h]
  · intro task h
    simp [pipeline, dictContains, dictGetItem, SUPPORTED_MODEL_WITH_TASKS,
          Except.bind, beq_iff_eq, Ne.symm h]

/-- Witness for the amended claim C4 at the unregistered model type `gpt2`
and the unregistered task `summarization`. -/
theorem claim_C4_amended_witness :
    (dictContains SUPPORTED_MODEL_WITH_TASKS "gpt2" = false ∧
     pipeline "text-generation" "gpt2" =
       .error (.notImplementedError
         ("Model type " ++ "gpt2" ++ " is not currently supported"))) ∧
    ("summarization" ≠ "text-generation" ∧
     pipeline "summarization" "llama" =
       .error (.valueError ("Task " ++ "summarization" ++
         " is not supported yet for " ++ "llama" ++ "."))) :=
  ⟨⟨rfl, claim_C4_amended.1 "text-generation" "gpt2" rfl⟩,
   ⟨by decide, claim_C4_amended.2 "summarization" (by decide)⟩⟩

/-- Claim C5: `validate()` raises `ValueError` when no optimization
profile is set; whenever any profile field lies outside its bound
(lower or upper, in the order the source checks them:
`max_batch_size >= 1`, `1 <= max_prompt_length <= L-1`,
`1 <= max_new_tokens <= L-1`,
`prompt+new <= max_output_length <= L`, where `L` is
`max_position_embeddings`) it raises `ValueError` naming the offending
field and the violated bound; and every non-raising run returns `True`. -/
theorem claim_C5 :
    (∀ s : BuilderState, s.optimization_profile = none →
      validate s = .error (.valueError no_profile_msg)) ∧
    (∀ (s : BuilderState) (p : OptimizationProfile) (L mb mp mn vout : Int),
      s.optimization_profile = some p →
      s.model_config.max_position_embeddings = L →
      p.max_batch_size = mb →
      p.max_prompt_length = some mp →
      p.max_new_tokens = some mn →
      p.max_output_length = some vout →
      ((mb < 1 →
        validate s = .error (.valueError ("Invalid value (" ++ toString mb ++
          ") for " ++ "max_batch_size" ++ ". Needs to be >= " ++ toString ((1 : Int))))) ∧
       (1 ≤ mb → mp < 1 →
        validate s = .error (.valueError ("Invalid value (" ++ toString mp ++
          ") for " ++ "max_prompt_length" ++ ". Needs to be >= " ++ toString ((1 : Int))))) ∧
       (1 ≤ mb → 1 ≤ mp → mp > L - 1 →
        validate s = .error (.valueError ("Invalid value (" ++ toString mp ++
          ") for " ++ "max_prompt_length" ++ ". Needs to be <= " ++ toString (L - 1)))) ∧
       (1 ≤ mb → 1 ≤ mp → mp ≤ L - 1 → mn < 1 →
        validate s = .error (.valueError ("Invalid value (" ++ toString mn ++
          ") for " ++ "max_new_tokens" ++ ". Needs to be >= " ++ toString ((1 : Int))))) ∧
       (1 ≤ mb → 1 ≤ mp → mp ≤ L - 1 → 1 ≤ mn → mn > L - 1 →
        validate s = .error (.valueError ("Invalid value (" ++ toString mn ++
          ") for " ++ "max_new_tokens" ++ ". Needs to be <= " ++ toString (L - 1)))) ∧
       (1 ≤ mb → 1 ≤ mp → mp ≤ L - 1 → 1 ≤ mn → mn ≤ L - 1 → vout < mp + mn →
        validate s = .error (.valueError ("Invalid value (" ++ toString vout ++
          ") for " ++ "max_output_length" ++ ". Needs to be >= " ++ toString (mp + mn)))) ∧
       (1 ≤ mb → 1 ≤ mp → mp ≤ L - 1 → 1 ≤ mn → mn ≤ L - 1 → mp + mn ≤ vout → vout > L →
        validate s = .error (.valueError ("Invalid value (" ++ toString vout ++
          ") for " ++ "max_output_length" ++ ". Needs to be <= " ++ toString L))))) ∧
    (∀ (s : BuilderState) (out : ValidateOut),
      validate s = .ok out → out.ret = true) := by
  refine ⟨?_, ?_, ?_⟩
  · intro s h
    simp [validate, h]
  · intro s p L mb mp mn vout hs hL hmb hmp hmn hout
    refine ⟨?_, ?_, ?_, ?_, ?_, ?_, ?_⟩
    · intro v1
      simp [validate, hs, hL, profile_bounds_check, pyNum, hmp, hmn, hout, hmb,
            checkMin, checkMax, Except.bind, v1]
    · intro b1 v2
      have n1 : ¬ mb < 1 := by omega
      simp [validate, hs, hL, profile_bounds_check, pyNum, hmp, hmn, hout, hmb,
            checkMin, checkMax, Except.bind, n1, v2]
    · intro b1 b2 v3
      have n1 : ¬ mb < 1 := by omega
      have n2 : ¬ mp < 1 := by omega
      have y3 : L - 1 < mp := by omega
      simp [validate, hs, hL, profile_bounds_check, pyNum, hmp, hmn, hout, hmb,
            checkMin, checkMax, Except.bind, n1, n2, y3]
    · intro b1 b2 b3 v4
      have n1 : ¬ mb < 1 := by omega
      have n2 : ¬ mp < 1 := by omega
      have n3 : ¬ L - 1 < mp := by omega
      simp [validate, hs, hL, profile_bounds_check, pyNum, hmp, hmn, hout, hmb,
            checkMin, checkMax, Except.bind, n1, n2, n3, v4]
    · intro b1 b2 b3 b4 v5
      have n1 : ¬ mb < 1 := by omega
      have n2 : ¬ mp < 1 := by omega
      have n3 : ¬ L - 1 < mp := by omega
      have n4 : ¬ mn < 1 := by omega
      have y5 : L - 1 < mn := by omega
      simp [validate, hs, hL, profile_bounds_check, pyNum, hmp, hmn, hout, hmb,
            checkMin, checkMax, Except.bind, n1, n2, n3, n4, y5]
    · intro b1 b2 b3 b4 b5 v6
      have n1 : ¬ mb < 1 := by omega
      have n2 : ¬ mp < 1 := by omega
      have n3 : ¬ L - 1 < mp := by omega
      have n4 : ¬ mn < 1 := by omega
      have n5 : ¬ L - 1 < mn := by omega
      simp [validate, hs, hL, profile_bounds_check, pyNum, hmp, hmn, hout, hmb,
            checkMin, checkMax, Except.bind, n1, n2, n3, n4, n5, v6]
    · intro b1 b2 b3 b4 b5 b6 v7
      have n1 : ¬ mb < 1 := by omega
      have n2 : ¬ mp < 1 := by omega
      have n3 : ¬ L - 1 < mp := by omega
      have n4 : ¬ mn < 1 := by omega
      have n5 : ¬ L - 1 < mn := by omega
      have n6 : ¬ vout < mp + mn := by omega
      have y7 : L < vout := by omega
      simp [validate, hs, hL, profile_bounds_check, pyNum, hmp, hmn, hout, hmb,
            checkMin, checkMax, Except.bind, n1, n2, n3, n4, n5, n6, y7]
  · intro s out h
    exact (validate_ok_shape s out h).2.2

/-- Witness for claim C5: a builder without a profile, a builder whose
profile has `max_batch_size = 0` (lower bound), a builder whose
`max_prompt_length = 150` exceeds the upper bound 99, and a successfully
validating builder. -/
theorem claim_C5_witness :
    (c5_no_profile.optimization_profile = none ∧
     validate c5_no_profile = .error (.valueError no_profile_msg)) ∧
    (validate c5_batch0 = .error (.valueError ("Invalid value (" ++
       toString ((0 : Int)) ++ ") for " ++ "max_batch_size" ++
       ". Needs to be >= " ++ toString ((1 : Int))))) ∧
    (validate c5_prompt_over = .error (.valueError ("Invalid value (" ++
       toString ((150 : Int)) ++ ") for " ++ "max_prompt_length" ++
       ". Needs to be <= " ++ toString ((100 : Int) - 1)))) ∧
    (validate c6_state = .ok c6_out ∧ c6_out.ret = true) :=
  ⟨⟨rfl, claim_C5.1 c5_no_profile rfl⟩,
   (claim_C5.2.1 c5_batch0
     { max_batch_size := 0, max_prompt_length := some 8,
       max_new_tokens := some 8, max_output_length := some 16 }
     100 0 8 8 16 rfl rfl rfl rfl rfl rfl).1 (by norm_num),
   (claim_C5.2.1 c5_prompt_over
     { max_batch_size := 1, max_prompt_length := some 150,
       max_new_tokens := some 8, max_output_length := some 158 }
     100 1 150 8 158 rfl rfl rfl rfl rfl rfl).2.2.1 (by norm_num) (by norm_num)
     (by norm_num),
   ⟨rfl, claim_C5.2.2 c6_state c6_out rfl⟩⟩

/-- Claim C6: after a non-raising `validate()` on a builder with no
quantization configured, `_qconfig` holds the tuple `(QuantMode(0), 0)`;
a subsequent `create_builder_config` call on that state therefore raises
`AttributeError` (from `qconfig.has_fp8_qdq()`) instead of producing a
builder configuration. -/
theorem claim_C6 (s : BuilderState) (out : ValidateOut) (shard : Shard)
    (is_parallel : Bool) (opt_level : Option Int)
    (hq : s.qconfig = none) (h : validate s = .ok out) :
    out.state.qconfig = some (.pair { value := 0 } 0) ∧
    create_builder_config out.state shard is_parallel opt_level =
      .error (.attributeError "tuple object has no attribute has_fp8_qdq") ∧
    except_is_ok (create_builder_config out.state shard is_parallel opt_level) = false := by
  have hshape := validate_ok_shape s out h
  have hqc : out.state.qconfig = some (.pair { value := 0 } 0) := by
    rw [hshape.2.1, hq]
  refine ⟨hqc, ?_, ?_⟩
  · simp [create_builder_config, hqc, qconfig_has_fp8_qdq_attr, Except.bind]
  · simp [create_builder_config, hqc, qconfig_has_fp8_qdq_attr, Except.bind,
          except_is_ok]

/-- Witness for claim C6: the concrete builder `c6_state` (no quantization,
valid profile) validated and then fed to `create_builder_config`. -/
theorem claim_C6_witness :
    c6_state.qconfig = none ∧ validate c6_state = .ok c6_out ∧
    (c6_out.state.qconfig = some (.pair { value := 0 } 0) ∧
     create_builder_config c6_out.state c6_shard false none =
       .error (.attributeError "tuple object has no attribute has_fp8_qdq") ∧
     except_is_ok (create_builder_config c6_out.state c6_shard false none) = false) :=
  ⟨rfl, rfl, claim_C6 c6_state c6_out c6_shard false none rfl rfl⟩

/-- Claim C7: with a calibration dataset supplied, `quantize` reuses a
calibration directory holding exactly two files, one `.json` and one
`.safetensors` (no model loading, empty effect trace); an absent
directory, or one missing either extension, triggers the full
load-and-recalibrate path; and in every case `build_info.quantized_path`
ends up set to `output_path/calibration`. -/
theorem claim_C7 :
    (∀ (s : BuilderState) (out : String) (files : List String) (c : Calibration),
      s.quantization_calibration = some c →
      files.length = 2 →
      files.any (fun f => py_endswith f ".json") = true →
      files.any (fun f => py_endswith f ".safetensors") = true →
      quantize s out (.dir files) =
        ({ s with build_info :=
             { parallel := s.build_info.parallel,
               num_parallel_jobs := s.build_info.num_parallel_jobs,
               quantized_path := some (out ++ "/calibration") } }, [])) ∧
    (∀ (s : BuilderState) (out : String) (c : Calibration),
      s.quantization_calibration = some c →
      quantize s out .absent =
        ({ s with build_info :=
             { parallel := s.build_info.parallel,
               num_parallel_jobs := s.build_info.num_parallel_jobs,
               quantized_path := some (out ++ "/calibration") } },
         recompute_effects)) ∧
    (∀ (s : BuilderState) (out : String) (files : List String) (c : Calibration),
      s.quantization_calibration = some c →
      (files.any (fun f => py_endswith f ".json") = false ∨
       files.any (fun f => py_endswith f ".safetensors") = false) →
      quantize s out (.dir files) =
        ({ s with build_info :=
             { parallel := s.build_info.parallel,
               num_parallel_jobs := s.build_info.num_parallel_jobs,
               quantized_path := some (out ++ "/calibration") } },
         recompute_effects)) := by
  refine ⟨?_, ?_, ?_⟩
  · intro s out files c hc hlen hj hq
    simp [quantize, hc, hlen, hj, hq, FsEntry.pathExists, FsEntry.isDir]
  · intro s out c hc
    simp [quantize, hc, FsEntry.pathExists]
  · intro s out files c hc hmiss
    rcases hmiss with hj | hq
    · by_cases hlen : files.length = 2 <;>
        simp [quantize, hc, hlen, hj, FsEntry.pathExists, FsEntry.isDir]
    · by_cases hlen : files.length = 2 <;>
        simp [quantize, hc, hlen, hq, FsEntry.pathExists, FsEntry.isDir]

/-- Witness for claim C7: a valid two-file cache directory is reused, an
absent directory and a directory missing the `.json` file recompute. -/
theorem claim_C7_witness :
    (c7_state.quantization_calibration = some { id := 0 } ∧
     (["quant_cfg.json", "rank0.safetensors"] : List String).length = 2 ∧
     quantize c7_state "out" (.dir ["quant_cfg.json", "rank0.safetensors"]) =
       ({ c7_state with build_info :=
            { parallel := c7_state.build_info.parallel,
              num_parallel_jobs := c7_state.build_info.num_parallel_jobs,
              quantized_path := some ("out" ++ "/calibration") } }, [])) ∧
    (quantize c7_state "out" .absent =
       ({ c7_state with build_info :=
            { parallel := c7_state.build_info.parallel,
              num_parallel_jobs := c7_state.build_info.num_parallel_jobs,
              quantized_path := some ("out" ++ "/calibration") } },
        recompute_effects)) ∧
    (quantize c7_state "out" (.dir ["rank0.safetensors"]) =
       ({ c7_state with build_info :=
            { parallel := c7_state.build_info.parallel,
              num_parallel_jobs := c7_state.build_info.num_parallel_jobs,
              quantized_path := some ("out" ++ "/calibration") } },
        recompute_effects)) :=
  ⟨⟨rfl, rfl,
    claim_C7.1 c7_state "out" ["quant_cfg.json", "rank0.safetensors"]
      { id := 0 } rfl rfl (by decide) (by decide)⟩,
   claim_C7.2.1 c7_state "out" { id := 0 } rfl,
   claim_C7.2.2 c7_state "out" ["rank0.safetensors"] { id := 0 } rfl (Or.inl (by decide))⟩

/-- Claim C8: `with_quantization_profile` raises
`UnsupportedHardwareFeature` — with an empty effect trace, i.e. before any
model loading — whenever the mode requests an fp8 feature and the hardware
reports no float8 support; a mode requesting no fp8 feature is stored
together with the calibration handle and the builder is returned. -/
theorem claim_C8 :
    (∀ (s : BuilderState) (hw : HardwareCapabilities) (mode : QuantMode)
        (cal : Option Calibration),
      (mode.has_fp8_qdq = true ∨ mode.has_fp8_kv_cache = true) →
      hw.has_float8_support = false →
      with_quantization_profile s hw mode cal =
        (.error (.unsupportedHardwareFeature "float8"), ([] : List Effect))) ∧
    (∀ (s : BuilderState) (hw : HardwareCapabilities) (mode : QuantMode)
        (cal : Option Calibration),
      mode.has_fp8_qdq = false → mode.has_fp8_kv_cache = false →
      with_quantization_profile s hw mode cal =
        (.ok { s with qconfig := some (.mode mode),
                      quantization_calibration := cal }, ([] : List Effect))) := by
  constructor
  · intro s hw mode cal hm hf
    rcases hm with hm | hm <;> simp [with_quantization_profile, hm, hf]
  · intro s hw mode cal h1 h2
    simp [with_quantization_profile, h1, h2]

/-- Witness for claim C8: an fp8-qdq mode on float8-less hardware fails
with an empty effect trace; `QuantMode(0)` is stored. -/
theorem claim_C8_witness :
    ((fp8_qdq_mode.has_fp8_qdq = true ∨ fp8_qdq_mode.has_fp8_kv_cache = true) ∧
     with_quantization_profile c9_state { has_float8_support := false }
         fp8_qdq_mode none =
       (.error (.unsupportedHardwareFeature "float8"), ([] : List Effect))) ∧
    (quant_mode_zero.has_fp8_qdq = false ∧
     quant_mode_zero.has_fp8_kv_cache = false ∧
     with_quantization_profile c9_state { has_float8_support := false }
         quant_mode_zero (some { id := 0 }) =
       (.ok { c9_state with qconfig := some (.mode quant_mode_zero),
                            quantization_calibration := some { id := 0 } },
        ([] : List Effect))) :=
  ⟨⟨Or.inl (by decide),
    claim_C8.1 c9_state { has_float8_support := false } fp8_qdq_mode none
      (Or.inl (by decide)) rfl⟩,
   ⟨by decide, by decide,
    claim_C8.2 c9_state { has_float8_support := false } quant_mode_zero
      (some { id := 0 }) (by decide) (by decide)⟩⟩

/-- Claim C9 counterexample: with `max_prompt_length = 0`,
`max_new_tokens = 5` on a 100-token model, the stored
`max_output_length` does default to the sum (5), and
`0 + 5 <= 100` and `max_batch_size = 1 >= 1` hold, yet `validate()`
raises `ValueError` for `max_prompt_length` instead of succeeding. -/
theorem claim_C9_counterexample :
    (with_generation_profile c9_state 1 (some 0) (some 5) none).optimization_profile =
      some { max_batch_size := 1, max_prompt_length := some 0,
             max_new_tokens := some 5, max_output_length := some (0 + 5) } ∧
    ((0 : Int) + 5 ≤ 100 ∧ (1 : Int) ≥ 1) ∧
    validate (with_generation_profile c9_state 1 (some 0) (some 5) none) =
      .error (.valueError ("Invalid value (" ++ toString ((0 : Int)) ++
        ") for " ++ "max_prompt_length" ++ ". Needs to be >= " ++ toString ((1 : Int)))) ∧
    except_is_ok (validate (with_generation_profile c9_state 1 (some 0) (some 5) none)) = false :=
  ⟨rfl, ⟨by norm_num, by norm_num⟩, rfl, rfl⟩

/-- Claim C9 (amended): when `max_output_length` is omitted and both
`max_prompt_length` and `max_new_tokens` are given, the stored profile has
`max_output_length = max_prompt_length + max_new_tokens`; and if
additionally both given values are positive (as §3 of the spec requires of
profile fields), their sum is at most `max_position_embeddings` and
`max_batch_size >= 1`, then `validate()` succeeds. -/
theorem claim_C9_amended (s : BuilderState) (mb mp mn : Int)
    (h1 : 1 ≤ mp) (h2 : 1 ≤ mn)
    (h3 : mp + mn ≤ s.model_config.max_position_embeddings) (h4 : 1 ≤ mb) :
    (with_generation_profile s mb (some mp) (some mn) none).optimization_profile =
      some { max_batch_size := mb, max_prompt_length := some mp,
             max_new_tokens := some mn, max_output_length := some (mp + mn) } ∧
    except_is_ok (validate (with_generation_profile s mb (some mp) (some mn) none)) = true := by
  constructor
  · rfl
  · have hpbc : profile_bounds_check
        { max_batch_size := mb, max_prompt_length := some mp,
          max_new_tokens := some mn, max_output_length := some (mp + mn) }
        s.model_config.max_position_embeddings = .ok (mp, mp + mn) :=
      profile_bounds_check_ok _ s.model_config.max_position_embeddings mp mn
        (mp + mn) rfl rfl rfl h4 h1 (by omega) h2 (by omega) (by omega) h3
    exact validate_ok_of_bounds _ _ (mp, mp + mn) rfl hpbc

/-- Witness for the amended claim C9 at batch 1, prompt 8, new tokens 8 on
the 100-token llama configuration. -/
theorem claim_C9_amended_witness :
    ((1 : Int) ≤ 8 ∧ (1 : Int) ≤ 8 ∧
     (8 : Int) + 8 ≤ c9_state.model_config.max_position_embeddings ∧
     (1 : Int) ≤ 1) ∧
    ((with_generation_profile c9_state 1 (some 8) (some 8) none).optimization_profile =
       some { max_batch_size := 1, max_prompt_length := some 8,
              max_new_tokens := some 8, max_output_length := some (8 + 8) } ∧
     except_is_ok (validate (with_generation_profile c9_state 1 (some 8) (some 8) none)) = true) :=
  ⟨⟨by norm_num, by norm_num, by decide, by norm_num⟩,
   claim_C9_amended c9_state 1 8 8 (by norm_num) (by norm_num) (by decide) (by norm_num)⟩

/-- Claim C10: under the default environment switches, a successful
`_build_engine_for_rank` writes, for rank 0, the HuggingFace config file,
the timing-cache file and the builder-config file followed by its own
engine file, and for any rank other than 0 exactly its own ranked engine
file `{model_type}_{dtype}_tp{tp}_rank{rank}.engine` and nothing else. -/
theorem claim_C10 (s : BuilderState) (ext : ExternalBuilder) (env : EnvFlags)
    (shard : Shard) (output_path : String) (opt_level : Option Int)
    (is_parallel : Bool) (cfg : TRTBuilderConfig) (adapter : TrtAdapter)
    (bytes : List Nat)
    (h1 : env.output_onnx_ir = false)
    (h2 : create_builder_config s shard is_parallel opt_level = .ok cfg)
    (h3 : dictGetItem MODEL_TYPE_TO_TRT_IMPL s.model_config.model_type = .ok adapter)
    (h4 : ext.build_engine shard = some bytes) :
    build_engine_for_rank s ext env shard output_path opt_level is_parallel =
      .ok ((if shard.rank = 0 then
              [(output_path ++ "/" ++ CONFIG_NAME, .hfConfig s.model_config),
               (output_path ++ "/" ++ TENSORRT_TIMINGS_FILE, .timingCache),
               (output_path ++ "/" ++ OPTIMUM_NVIDIA_CONFIG_FILE, .builderCfg cfg)]
            else []) ++
           [(output_path ++ "/" ++
               create_unique_engine_name s.model_config.model_type s.dtype
                 shard.rank shard.tp_size,
             .engineData bytes)]) := by
  simp [build_engine_for_rank, h1, h2, h3, h4, Except.bind]

/-- Witness for claim C10 at the rank-1 shard of a two-way world: only the
ranked engine file is written. -/
theorem claim_C10_witness :
    (default_env.output_onnx_ir = false ∧
     create_builder_config c3_builder c10_shard false none = .ok c10_cfg ∧
     dictGetItem MODEL_TYPE_TO_TRT_IMPL c3_builder.model_config.model_type =
       .ok .llamaForCausalLM ∧
     c3_ext.build_engine c10_shard = some [1]) ∧
    build_engine_for_rank c3_builder c3_ext default_env c10_shard "out" none false =
      .ok ((if c10_shard.rank = 0 then
              [("out" ++ "/" ++ CONFIG_NAME, .hfConfig c3_builder.model_config),
               ("out" ++ "/" ++ TENSORRT_TIMINGS_FILE, .timingCache),
               ("out" ++ "/" ++ OPTIMUM_NVIDIA_CONFIG_FILE, .builderCfg c10_cfg)]
            else []) ++
           [("out" ++ "/" ++
               create_unique_engine_name c3_builder.model_config.model_type
                 c3_builder.dtype c10_shard.rank c10_shard.tp_size,
             .engineData [1])]) :=
  ⟨⟨rfl, rfl, rfl, rfl⟩,
   claim_C10 c3_builder c3_ext default_env c10_shard "out" none false c10_cfg
     .llamaForCausalLM [1] rfl rfl rfl rfl⟩
